import Mathlib

/-!
Shallow embedding of the adaptive locator-resolution and page-identification
engine of `pomace` (`src/pomace/models.py`), together with theorems checking
the natural-language specification against the code.

Modelling conventions:
* Python `int` is `Int`; Python lists are `List`.
* In-place mutation becomes explicit state passing: a method that mutates an
  object returns the updated object (paired with its Python return value).
* The browser-driver boundary (`Mode.finder`, element interaction, the
  operator prompt) is passed in as explicit oracle functions, mirroring the
  external collaborators in the source.
* `@datafile(order=True)` on `Locator` makes `==` (and `list.remove`) compare
  only the `uses` field; `Action`'s generated `==` compares `verb`, `name` and
  the locator list (element-wise by `uses`).  The removal helpers below encode
  exactly that.
-/

namespace Pomace

/-- One DOM element handle as seen through the driver boundary: the engine
only ever reads its visibility. -/
structure Element where
  visible : Bool
  deriving DecidableEq, Repr

/-- `Locator`: a single strategy (mode + value + positional index) for finding
one element, with a signed usage score (`src/pomace/models.py`, lines 25-73). -/
structure Locator where
  mode : String := ""
  value : String := ""
  index : Int := 0
  uses : Int := 0
  deriving DecidableEq, Repr

/-- `Locator.__bool__`: truthy iff both `mode` and `value` are non-empty. -/
def Locator.truthy (l : Locator) : Bool :=
  decide (l.mode ≠ "") && decide (l.value ≠ "")

/-- Python list indexing with negative-index wrap-around, returning `none`
where Python raises `IndexError` (splinter raises `ElementDoesNotExist`). -/
def pyGet (xs : List Element) (i : Int) : Option Element :=
  if 0 ≤ i then xs.get? i.toNat
  else
    let j : Int := i + xs.length
    if 0 ≤ j then xs.get? j.toNat else none

/-- `Locator.find`: take the element at `index` among the driver's matches;
if `index == 0` and that element is invisible, advance once to index 1.  On
success remember the (possibly advanced) index; a failed lookup (either the
first or the advanced one) returns `none` and leaves the locator untouched.
The driver's match list `elements` models `self._mode.finder(self.value)`. -/
def Locator.find (l : Locator) (elements : List Element) :
    Option Element × Locator :=
  match pyGet elements l.index with
  | none => (none, l)
  | some element =>
    if l.index = 0 && !element.visible then
      match pyGet elements (l.index + 1) with
      | none => (none, l)
      | some element2 => (some element2, { l with index := l.index + 1 })
    else (some element, { l with index := l.index })

/-- `Locator.score`: clamp positive adjustments into `[1, 99]`, floor
non-positive adjustments at `-1`; return whether `uses` changed. -/
def Locator.score (l : Locator) (value : Int) : Locator × Bool :=
  let next : Int :=
    if 0 < value then min 99 (max 1 (l.uses + value))
    else max (-1) (l.uses + value)
  ({ l with uses := next }, if next = l.uses then false else true)

/-- Descending comparison by `uses`, the dataclass ordering generated by
`@datafile(order=True)` (only `uses` has `compare=True`) read through
`sorted(..., reverse=True)`. -/
def byUses (a b : Locator) : Prop := b.uses ≤ a.uses

instance : DecidableRel byUses := fun a b => inferInstanceAs (Decidable (b.uses ≤ a.uses))

instance : IsTotal Locator byUses := ⟨fun a b => le_total b.uses a.uses⟩

instance : IsTrans Locator byUses := ⟨fun _ _ _ h1 h2 => le_trans h2 h1⟩

/-- The same descending-by-`uses` comparison on position-tagged locators. -/
def byUsesP (a b : Nat × Locator) : Prop := b.2.uses ≤ a.2.uses

instance : DecidableRel byUsesP := fun a b => inferInstanceAs (Decidable (b.2.uses ≤ a.2.uses))

/-- `Action.sorted_locators` / `Locators.sorted_inclusions` /
`Locators.sorted_exclusions`: `[x for x in sorted(xs, reverse=True) if x]` —
stable sort descending by `uses`, then drop falsy placeholders.
`List.insertionSort` is stable, matching Python's sort. -/
def sortedLocators (ls : List Locator) : List Locator :=
  (List.insertionSort byUses ls).filter Locator.truthy

/-- The positions (into the owning list) of the sorted candidate locators, in
candidate order.  Python iterates the sorted list of references and mutates
the shared objects; position-indexed state passing models that aliasing. -/
def sortedIndices (ls : List Locator) : List Nat :=
  ((List.insertionSort byUsesP ls.enum).filter (fun p => p.2.truthy)).map Prod.fst

/-- `Action`: a verb-tagged named operation backed by candidate locators
(`src/pomace/models.py`, lines 76-182).  The default collection is a single
empty placeholder, as in `field(default_factory=lambda: [Locator()])`. -/
structure Action where
  verb : String := ""
  name : String := ""
  locators : List Locator := [⟨"", "", 0, 0⟩]
  deriving DecidableEq, Repr

/-- Python `list.remove` on a list of `Locator`s: the generated dataclass
equality compares only `uses` (the sole `compare=True` field), so the first
element with the same `uses` is dropped; a missing element is a no-op here
(the source only ever removes elements it just enumerated). -/
def pyRemoveLocator : List Locator → Locator → List Locator
  | [], _ => []
  | x :: rest, c => if x.uses = c.uses then rest else x :: pyRemoveLocator rest c

/-- `for locator in unused: collection.remove(locator)` over a candidate list. -/
def removeLocators (xs : List Locator) (cs : List Locator) : List Locator :=
  cs.foldl pyRemoveLocator xs

/-- `Action.clean`: collect `uses <= 0` candidates; remove them only when
`force` or some locator of this action has `uses >= 99`; return the count. -/
def Action.clean (a : Action) (force : Bool) : Action × Nat :=
  let unused := a.locators.filter (fun l => decide (l.uses ≤ 0))
  let trigger := force || a.locators.any (fun l => decide (99 ≤ l.uses))
  if trigger then
    ({ a with locators := removeLocators a.locators unused }, unused.length)
  else (a, 0)

/-- `Locators`: the page-identification locator set of inclusions and
exclusions (`src/pomace/models.py`, lines 185-232). -/
structure Locators where
  inclusions : List Locator := []
  exclusions : List Locator := []
  deriving DecidableEq, Repr

/-- `Locators.clean`: candidates are collected per side, but a single
`uses >= 99` locator in either side triggers removal from both sides. -/
def Locators.clean (s : Locators) (force : Bool) : Locators × Nat :=
  let ui := s.inclusions.filter (fun l => decide (l.uses ≤ 0))
  let ue := s.exclusions.filter (fun l => decide (l.uses ≤ 0))
  let trigger := force || s.inclusions.any (fun l => decide (99 ≤ l.uses))
      || s.exclusions.any (fun l => decide (99 ≤ l.uses))
  if trigger then
    ({ inclusions := removeLocators s.inclusions ui,
       exclusions := removeLocators s.exclusions ue }, ui.length + ue.length)
  else (s, 0)

/-- Element-wise locator-list equality as generated for `Action.__eq__`
(each `Locator` compares by `uses` alone). -/
def locatorListEq : List Locator → List Locator → Bool
  | [], [] => true
  | x :: xs, y :: ys => decide (x.uses = y.uses) && locatorListEq xs ys
  | _, _ => false

/-- The dataclass equality of `Action`: all three fields participate. -/
def actionEq (a b : Action) : Bool :=
  decide (a.verb = b.verb) && decide (a.name = b.name)
    && locatorListEq a.locators b.locators

/-- Python `list.remove` on a list of `Action`s. -/
def pyRemoveAction : List Action → Action → List Action
  | [], _ => []
  | x :: rest, c => if actionEq x c then rest else x :: pyRemoveAction rest c

/-- `for action in unused: self.actions.remove(action)`. -/
def removeActions (xs : List Action) (cs : List Action) : List Action :=
  cs.foldl pyRemoveAction xs

/-- `Page`: key fields plus the identification locator set and the owned
actions (`src/pomace/models.py`, lines 235-386). -/
structure Page where
  domain : String
  path : String := "/"
  variant : String := "default"
  locators : Locators := {}
  actions : List Action := [{}]
  deriving DecidableEq, Repr

/-- `Page.exact`: true iff the path contains no template placeholder
(`"\x7b" not in self.path`). -/
def Page.exact (p : Page) : Bool :=
  !(p.path.toList.contains (Char.ofNat 123))

/-- `Page.clean`: clean the locator set, drop actions whose locators are all
`uses <= 0` — but only under `force` — then clean every remaining action.
The returned count sums the locator-set count and each action's count. -/
def Page.clean (p : Page) (force : Bool) : Page × Nat :=
  let r := p.locators.clean force
  let unusedActions := p.actions.filter
    (fun a => a.locators.all (fun l => decide (l.uses ≤ 0)))
  let actions1 :=
    if !unusedActions.isEmpty && force then removeActions p.actions unusedActions
    else p.actions
  let cleaned := actions1.map (fun a => a.clean force)
  ({ p with locators := r.1, actions := cleaned.map Prod.fst },
   r.2 + (cleaned.map Prod.snd).sum)

/-- `auto`: collect the domain's pages that are active, note whether any page
of the domain (active or not) has an exact path, suppress templated pages
from the matches when one does, and return the first match — or the freshly
created page for the current URL when no match remains.  `isActive` is the
`Page.active` evaluation against the live document; `newPage` models
`Page.at(shared.browser.url)`. -/
def auto (isActive : Page → Bool) (pages : List Page) (newPage : Page) : Page :=
  let matching := pages.filter isActive
  let matching2 :=
    if pages.any Page.exact then matching.filter Page.exact else matching
  match matching2 with
  | p :: _ => p
  | [] => newPage

/-- A locator set with a strongly-confirmed inclusion locator and a stale
exclusion locator, exercising the cross-side cleanup trigger. -/
def lsCross : Locators :=
  { inclusions := [{ mode := "id", value := "banner", uses := 99 }],
    exclusions := [{ mode := "id", value := "spinner", uses := 0 }] }

/-- An action holding only modest positive and stale locators (none at 99). -/
def actW : Action :=
  { verb := "click", name := "submit",
    locators := [{ mode := "id", value := "go", uses := 3 },
                 { mode := "css", value := ".go", uses := 0 }] }

/-- A locator set with no locator at 99 on either side. -/
def lsW : Locators :=
  { inclusions := [{ mode := "id", value := "hdr", uses := 2 }],
    exclusions := [{ mode := "id", value := "err", uses := -1 }] }

/-- A page whose first action is a stale candidate (all locators
non-positive) while confirmed (`uses = 99`) locators exist both in the
page's inclusion set and in its second action. -/
def pageCex : Page :=
  { domain := "example.com", path := "/home",
    locators := { inclusions := [{ mode := "id", value := "top", uses := 99 }],
                  exclusions := [] },
    actions :=
      [ { verb := "click", name := "stale",
          locators := [{ mode := "id", value := "x", uses := 0 },
                       { mode := "id", value := "y", uses := -1 }] },
        { verb := "click", name := "fresh",
          locators := [{ mode := "id", value := "z", uses := 99 },
                       { mode := "id", value := "w", uses := 0 }] } ] }

/-- The inclusion loop of `Page.active`: walk the pre-computed sorted
candidate positions; a found locator is scored `+1` in place and the walk
continues; a locator that is not found ends the walk immediately with the
score updates made so far (`src/pomace/models.py`, lines 280-286).  `findE`
models the driver query `self._mode.finder(self.value)`. -/
def processIncl (findE : Locator → List Element) :
    List Locator → List Nat → List Locator × Bool
  | st, [] => (st, true)
  | st, i :: rest =>
    match st.get? i with
    | none => processIncl findE st rest
    | some l =>
      match l.find (findE l) with
      | (some _, l2) => processIncl findE (st.set i ((l2.score 1).1)) rest
      | (none, _) => (st, false)

/-- The exclusion loop of `Page.active`: a found locator is scored `+1` and
makes the page inactive immediately; a locator that is not found is left
untouched and the walk continues (`src/pomace/models.py`, lines 288-294). -/
def processExcl (findE : Locator → List Element) :
    List Locator → List Nat → List Locator × Bool
  | st, [] => (st, true)
  | st, i :: rest =>
    match st.get? i with
    | none => processExcl findE st rest
    | some l =>
      match l.find (findE l) with
      | (some _, l2) => (st.set i ((l2.score 1).1), false)
      | (none, _) => processExcl findE st rest

/-- `Page.active` restricted to its locator work: after the URL comparison
(`urlMatches`), all sorted inclusions must be found, then no sorted exclusion
may be found.  Returns the updated locator set and the activity verdict. -/
def pageActive (findE : Locator → List Element) (urlMatches : Bool)
    (locs : Locators) : Locators × Bool :=
  if urlMatches then
    if (processIncl findE locs.inclusions (sortedIndices locs.inclusions)).2 then
      ({ inclusions := (processIncl findE locs.inclusions
            (sortedIndices locs.inclusions)).1,
         exclusions := (processExcl findE locs.exclusions
            (sortedIndices locs.exclusions)).1 },
       (processExcl findE locs.exclusions (sortedIndices locs.exclusions)).2)
    else
      ({ inclusions := (processIncl findE locs.inclusions
            (sortedIndices locs.inclusions)).1,
         exclusions := locs.exclusions }, false)
  else (locs, false)

/-- The candidate loop of `Action._trying_locators` (element-scoped verbs):
walk the sorted candidate positions; a locator that finds an element on which
the verb succeeds is scored `+1` and the dispatch stops successfully (the
Python method returns `False`); on a failed find or a recoverable driver
failure the locator is scored `-1` and the next candidate is tried; when all
candidates fail the method returns `True` (`src/pomace/models.py`, lines
120-138).  `perform` models `self._perform_action` on the found element. -/
def tryLoop (findE : Locator → List Element) (perform : Element → Bool) :
    List Locator → List Nat → List Locator × Bool
  | st, [] => (st, true)
  | st, i :: rest =>
    match st.get? i with
    | none => tryLoop findE perform st rest
    | some l =>
      match l.find (findE l) with
      | (some e, l2) =>
        if perform e then (st.set i ((l2.score 1).1), false)
        else tryLoop findE perform (st.set i ((l2.score (-1)).1)) rest
      | (none, l2) =>
        tryLoop findE perform (st.set i ((l2.score (-1)).1)) rest

/-- `Action._trying_locators` over the action's locator list: returns the
updated list and `true` exactly when every candidate failed. -/
def tryingLocators (findE : Locator → List Element) (perform : Element → Bool)
    (ls : List Locator) : List Locator × Bool :=
  tryLoop findE perform ls (sortedIndices ls)

/-- The retry loop of `Action._call_method`: while `_trying_locators` reports
exhaustion, consult the operator prompt (`prompts.mode_and_value()`); a
supplied `(mode, value)` pair appends a fresh locator (score 0) and the loop
restarts; a declined prompt ends the loop with the action unresolved.  The
prompt script is a finite list of answers; the returned flag is `true` when
some pass of `_trying_locators` succeeded (`src/pomace/models.py`, lines
105-113). -/
def callMethodLoop (findE : Locator → List Element) (perform : Element → Bool) :
    List (Option (String × String)) → List Locator → List Locator × Bool
  | [], ls =>
    match tryingLocators findE perform ls with
    | (ls2, false) => (ls2, true)
    | (ls2, true) => (ls2, false)
  | none :: _, ls =>
    match tryingLocators findE perform ls with
    | (ls2, false) => (ls2, true)
    | (ls2, true) => (ls2, false)
  | some (m, v) :: rest, ls =>
    match tryingLocators findE perform ls with
    | (ls2, false) => (ls2, true)
    | (ls2, true) =>
      callMethodLoop findE perform rest (ls2 ++ [{ mode := m, value := v }])

/-- A driver oracle that never finds any element. -/
def findNothing : Locator → List Element := fun _ => []

/-- A visible element for the dispatch scenario. -/
def elemW : Element := { visible := true }

/-- The higher-scored first candidate of the dispatch scenario. -/
def loc1W : Locator := { mode := "id", value := "first", uses := 3 }

/-- The lower-scored second candidate of the dispatch scenario. -/
def loc2W : Locator := { mode := "css", value := "second", uses := 1 }

/-- A driver oracle resolving only the second candidate of the scenario. -/
def findSecondW : Locator → List Element :=
  fun l => if l.value = "second" then [elemW] else []

/-- An interaction oracle on which every attempt succeeds. -/
def performAlways : Element → Bool := fun _ => true

/-- A locator set for the `Page.active` short-circuit scenario. -/
def locsActiveW : Locators :=
  { inclusions := [{ mode := "id", value := "need", uses := 1 }],
    exclusions := [{ mode := "id", value := "forbid", uses := 2 }] }

/-- An exact-path page matching the disambiguation scenario. -/
def pageExactW : Page := { domain := "example.com", path := "/cart" }

/-- A templated-path page matching the disambiguation scenario. -/
def pageTmplW : Page := { domain := "example.com", path := "/\x7bid\x7d" }

/-- A freshly created page for the disambiguation scenario. -/
def pageNewW : Page := { domain := "example.com", path := "/other" }

end Pomace

open Pomace

/-- C1: `Locator.score(delta)` sets `uses` to `min(99, max(1, uses + delta))`
when `delta > 0` and to `max(-1, uses + delta)` when `delta <= 0`, and returns
`false` exactly when the clamped result equals the previous value. -/
theorem locator_score_spec (l : Locator) (v : Int) :
    ((l.score v).1.uses =
      if 0 < v then min 99 (max 1 (l.uses + v)) else max (-1) (l.uses + v))
    ∧ ((l.score v).2 = false ↔ (l.score v).1.uses = l.uses) := by
  unfold Locator.score
  constructor
  · rfl
  · dsimp only
    by_cases h : (if 0 < v then min 99 (max 1 (l.uses + v))
        else max (-1) (l.uses + v)) = l.uses
    · simp [h]
    · simp [h]

/-- Removing one locator that compares equal to a non-positive candidate never
drops a locator with a strictly positive score. -/
theorem mem_pyRemoveLocator {l c : Locator} {xs : List Locator}
    (hc : c.uses ≤ 0) (hl : 0 < l.uses) (hm : l ∈ xs) :
    l ∈ pyRemoveLocator xs c := by
  induction xs with
  | nil => simp at hm
  | cons x rest ih =>
    rw [pyRemoveLocator]
    by_cases hx : x.uses = c.uses
    · rw [if_pos hx]
      rcases List.mem_cons.mp hm with h | h
      · subst h; omega
      · exact h
    · rw [if_neg hx]
      rcases List.mem_cons.mp hm with h | h
      · exact h ▸ List.mem_cons_self _ _
      · exact List.mem_cons_of_mem _ (ih h)

/-- Removing any batch of non-positive candidates preserves membership of
every positively-scored locator. -/
theorem mem_removeLocators {l : Locator} {xs cs : List Locator}
    (hcs : ∀ c ∈ cs, c.uses ≤ 0) (hl : 0 < l.uses) (hm : l ∈ xs) :
    l ∈ removeLocators xs cs := by
  induction cs generalizing xs with
  | nil => simpa [removeLocators] using hm
  | cons c cs ih =>
    show l ∈ removeLocators (pyRemoveLocator xs c) cs
    exact ih (fun d hd => hcs d (List.mem_cons_of_mem _ hd))
      (mem_pyRemoveLocator (hcs c (List.mem_cons_self _ _)) hl hm)

/-- A positively-scored head commutes past the removal of non-positive
candidates. -/
theorem removeLocators_cons_pos {x : Locator} {xs cs : List Locator}
    (hx : 0 < x.uses) (hcs : ∀ c ∈ cs, c.uses ≤ 0) :
    removeLocators (x :: xs) cs = x :: removeLocators xs cs := by
  induction cs generalizing xs with
  | nil => rfl
  | cons c cs ih =>
    have hxc : ¬ x.uses = c.uses := by
      have := hcs c (List.mem_cons_self _ _); omega
    show removeLocators (pyRemoveLocator (x :: xs) c) cs = _
    rw [pyRemoveLocator, if_neg hxc]
    exact ih (fun d hd => hcs d (List.mem_cons_of_mem _ hd))

/-- Removing exactly the non-positive candidates of a list leaves exactly its
positively-scored locators. -/
theorem removeLocators_filter (xs : List Locator) :
    removeLocators xs (xs.filter (fun l => decide (l.uses ≤ 0)))
      = xs.filter (fun l => decide (0 < l.uses)) := by
  induction xs with
  | nil => rfl
  | cons x xs ih =>
    by_cases hx : x.uses ≤ 0
    · rw [List.filter_cons_of_pos (by simpa using hx),
        List.filter_cons_of_neg (by simpa using (by omega : ¬ 0 < x.uses))]
      show removeLocators (pyRemoveLocator (x :: xs) x) _ = _
      rw [pyRemoveLocator, if_pos rfl]
      exact ih
    · rw [List.filter_cons_of_neg (by simpa using hx),
        List.filter_cons_of_pos (by simpa using (by omega : 0 < x.uses))]
      rw [removeLocators_cons_pos (by omega)
        (fun c hc => by simpa using (List.mem_filter.mp hc).2), ih]

/-- C9: no clean operation ever removes a locator whose `uses` is strictly
positive: with or without `force`, `Action.clean` and `Locators.clean` only
remove locators that were non-positive at the time of the call, so a locator
holding positive confidence always survives garbage collection. -/
theorem clean_preserves_positive (force : Bool) :
    (∀ (a : Action) (l : Locator), l ∈ a.locators → 0 < l.uses →
      l ∈ ((a.clean force).1).locators)
    ∧ (∀ (s : Locators) (l : Locator),
        (l ∈ s.inclusions → 0 < l.uses → l ∈ ((s.clean force).1).inclusions)
        ∧ (l ∈ s.exclusions → 0 < l.uses → l ∈ ((s.clean force).1).exclusions)) := by
  constructor
  · intro a l hm hl
    rw [Action.clean]
    by_cases ht : (force || a.locators.any fun l => decide (99 ≤ l.uses)) = true
    · rw [if_pos ht]
      exact mem_removeLocators
        (fun c hc => by simpa using (List.mem_filter.mp hc).2) hl hm
    · rw [if_neg ht]; exact hm
  · intro s l
    constructor
    · intro hm hl
      rw [Locators.clean]
      by_cases ht : ((force || s.inclusions.any fun l => decide (99 ≤ l.uses))
          || s.exclusions.any fun l => decide (99 ≤ l.uses)) = true
      · rw [if_pos ht]
        exact mem_removeLocators
          (fun c hc => by simpa using (List.mem_filter.mp hc).2) hl hm
      · rw [if_neg ht]; exact hm
    · intro hm hl
      rw [Locators.clean]
      by_cases ht : ((force || s.inclusions.any fun l => decide (99 ≤ l.uses))
          || s.exclusions.any fun l => decide (99 ≤ l.uses)) = true
      · rw [if_pos ht]
        exact mem_removeLocators
          (fun c hc => by simpa using (List.mem_filter.mp hc).2) hl hm
      · rw [if_neg ht]; exact hm

/-- Witness for C9 at a concrete action and locator set: the positive
locators of `actW` and `lsW` survive a forced clean. -/
theorem clean_preserves_positive_witness :
    { mode := "id", value := "go", uses := 3 : Locator }
        ∈ ((actW.clean true).1).locators
    ∧ { mode := "id", value := "hdr", uses := 2 : Locator }
        ∈ ((lsW.clean true).1).inclusions :=
  ⟨(clean_preserves_positive true).1 actW _ (by decide) (by decide),
   ((clean_preserves_positive true).2 lsW _).1 (by decide) (by decide)⟩

/-- C3 counterexample: with `force=False` and no `uses >= 99` locator in the
exclusions collection, `Locators.clean` nevertheless removes the stale
exclusion locator, because a `uses >= 99` locator in the *inclusions* side
licenses removal across both sides. -/
theorem locators_clean_cross_side_cex :
    lsCross.exclusions.all (fun l => decide (l.uses < 99)) = true
    ∧ lsCross.exclusions ≠ []
    ∧ ((lsCross.clean false).1).exclusions = [] := by decide

/-- C3 (amended): the candidates of a clean call are the `uses <= 0`
locators; `Action.clean(force=False)` removes nothing unless a locator of
that same action has `uses >= 99`, while for `Locators.clean(force=False)` a
`uses >= 99` locator in *either* side licenses removing the candidates of
both sides; `clean(force=True)` always removes every candidate; the call
returns the number of locators removed. -/
theorem clean_trigger_spec (a : Action) (s : Locators) :
    (a.locators.all (fun l => decide (l.uses < 99)) = true →
      a.clean false = (a, 0))
    ∧ ((a.clean true).1.locators
          = a.locators.filter (fun l => decide (0 < l.uses))
        ∧ (a.clean true).2
          = (a.locators.filter (fun l => decide (l.uses ≤ 0))).length)
    ∧ (s.inclusions.all (fun l => decide (l.uses < 99)) = true →
       s.exclusions.all (fun l => decide (l.uses < 99)) = true →
       s.clean false = (s, 0))
    ∧ ((s.inclusions.any (fun l => decide (99 ≤ l.uses)) = true
          ∨ s.exclusions.any (fun l => decide (99 ≤ l.uses)) = true) →
        s.clean false =
          ({ inclusions := s.inclusions.filter (fun l => decide (0 < l.uses)),
             exclusions := s.exclusions.filter (fun l => decide (0 < l.uses)) },
           (s.inclusions.filter (fun l => decide (l.uses ≤ 0))).length
             + (s.exclusions.filter (fun l => decide (l.uses ≤ 0))).length))
    ∧ ((s.clean true).1.inclusions
          = s.inclusions.filter (fun l => decide (0 < l.uses))
        ∧ (s.clean true).1.exclusions
          = s.exclusions.filter (fun l => decide (0 < l.uses))
        ∧ (s.clean true).2
          = (s.inclusions.filter (fun l => decide (l.uses ≤ 0))).length
            + (s.exclusions.filter (fun l => decide (l.uses ≤ 0))).length) := by
  refine ⟨?_, ⟨?_, ?_⟩, ?_, ?_, ?_, ?_, ?_⟩
  · intro h
    have hany : (a.locators.any fun l => decide (99 ≤ l.uses)) = false := by
      rw [List.any_eq_false]
      intro x hx
      have := List.all_eq_true.mp h x hx
      simp at this ⊢
      omega
    rw [Action.clean]
    simp [hany]
  · rw [Action.clean]
    simp [removeLocators_filter]
  · rw [Action.clean]
    simp
  · intro hi he
    have hanyi : (s.inclusions.any fun l => decide (99 ≤ l.uses)) = false := by
      rw [List.any_eq_false]
      intro x hx
      have := List.all_eq_true.mp hi x hx
      simp at this ⊢
      omega
    have hanye : (s.exclusions.any fun l => decide (99 ≤ l.uses)) = false := by
      rw [List.any_eq_false]
      intro x hx
      have := List.all_eq_true.mp he x hx
      simp at this ⊢
      omega
    rw [Locators.clean]
    simp [hanyi, hanye]
  · intro h
    have ht : ((false || s.inclusions.any fun l => decide (99 ≤ l.uses))
        || s.exclusions.any fun l => decide (99 ≤ l.uses)) = true := by
      rcases h with h | h <;> simp [h]
    rw [Locators.clean, if_pos ht]
    simp [removeLocators_filter]
  · rw [Locators.clean]
    simp [removeLocators_filter]
  · rw [Locators.clean]
    simp [removeLocators_filter]
  · rw [Locators.clean]
    simp

/-- Witness for C3 (amended) at concrete inputs: a quiet action and locator
set are untouched without `force`, and the cross-triggered set is cleaned. -/
theorem clean_trigger_spec_witness :
    Action.clean actW false = (actW, 0)
    ∧ Locators.clean lsW false = (lsW, 0)
    ∧ Locators.clean lsCross false =
        ({ inclusions := lsCross.inclusions.filter (fun l => decide (0 < l.uses)),
           exclusions := lsCross.exclusions.filter (fun l => decide (0 < l.uses)) },
         (lsCross.inclusions.filter (fun l => decide (l.uses ≤ 0))).length
           + (lsCross.exclusions.filter (fun l => decide (l.uses ≤ 0))).length) :=
  ⟨(clean_trigger_spec actW lsW).1 (by decide),
   (clean_trigger_spec actW lsW).2.2.1 (by decide) (by decide),
   (clean_trigger_spec actW lsCross).2.2.2.1 (Or.inl (by decide))⟩

/-- C2 counterexample: in `pageCex` the first action is a removal candidate
(all its locators have `uses <= 0`) and `uses >= 99` locators exist both in
the page's inclusion set and in another action, yet `Page.clean(force=False)`
keeps the candidate action: the confirmed-locator trigger never licenses
action removal, only `force` does. -/
theorem page_clean_action_removal_cex :
    (pageCex.actions.head?.map
        (fun a => a.locators.all (fun l => decide (l.uses ≤ 0)))) = some true
    ∧ pageCex.locators.inclusions.any (fun l => decide (99 ≤ l.uses)) = true
    ∧ pageCex.actions.any
        (fun a => a.locators.any (fun l => decide (99 ≤ l.uses))) = true
    ∧ ((pageCex.clean false).1).actions.any
        (fun a => decide (a.name = "stale")) = true := by decide

/-- C2 (amended): `Page.clean` treats an action all of whose locators have
`uses <= 0` as a removal candidate, but candidate actions are actually
removed only when `force` is true; a `uses >= 99` locator does not license
action removal.  Without `force` the action list is merely cleaned
element-wise; with `force` the candidates are removed first and the
remainder cleaned. -/
theorem page_clean_actions_force_only (p : Page) :
    ((p.clean false).1.actions = p.actions.map (fun a => (a.clean false).1))
    ∧ ((p.clean true).1.actions =
        (removeActions p.actions
          (p.actions.filter
            (fun a => a.locators.all (fun l => decide (l.uses ≤ 0))))).map
          (fun a => (a.clean true).1)) := by
  constructor
  · rw [Page.clean]
    simp
  · rw [Page.clean]
    by_cases he : (p.actions.filter
        (fun a => a.locators.all (fun l => decide (l.uses ≤ 0)))).isEmpty = true
    · rw [List.isEmpty_iff] at he
      simp [he, removeActions]
    · simp only [he]
      simp

/-- C7: the candidate list (`sorted_locators` / `sorted_inclusions` /
`sorted_exclusions`) contains exactly the owned locators with non-empty mode
and value, in descending order of `uses` (only `uses` participates in the
ordering), and a locator with empty mode or value is never in it. -/
theorem sorted_locators_spec :
    (∀ ls : List Locator, (sortedLocators ls).Perm (ls.filter Locator.truthy))
    ∧ (∀ ls : List Locator,
        (sortedLocators ls).Pairwise (fun a b => b.uses ≤ a.uses))
    ∧ (∀ (ls : List Locator) (l : Locator),
        l.mode = "" ∨ l.value = "" → l ∉ sortedLocators ls) := by
  refine ⟨?_, ?_, ?_⟩
  · intro ls
    exact (List.perm_insertionSort byUses ls).filter Locator.truthy
  · intro ls
    exact (List.sorted_insertionSort byUses ls).filter Locator.truthy
  · intro ls l h hmem
    have htr : Locator.truthy l = true := (List.mem_filter.mp hmem).2
    rcases h with h | h <;> simp [Locator.truthy, h] at htr

/-- Witness for C7 at a concrete list: an empty-value locator is excluded
from the candidate list regardless of its high score. -/
theorem sorted_locators_spec_witness :
    ({ mode := "id", value := "", uses := 50 : Locator })
      ∉ sortedLocators [{ mode := "id", value := "", uses := 50 : Locator }, loc1W] :=
  sorted_locators_spec.2.2 _ _ (Or.inr rfl)

/-- C6: inclusion locators are walked in score order and each found one is
scored `+1`; if the walk hits a not-found inclusion locator the page is
reported inactive immediately with the exclusion locators never evaluated
(their `uses` unchanged), while the increments already applied to earlier
found inclusion locators are retained in the result. -/
theorem page_active_inclusion_shortcircuit :
    (∀ (findE : Locator → List Element) (locs : Locators),
      (processIncl findE locs.inclusions (sortedIndices locs.inclusions)).2
          = false →
      pageActive findE true locs =
        ({ inclusions :=
             (processIncl findE locs.inclusions
               (sortedIndices locs.inclusions)).1,
           exclusions := locs.exclusions }, false))
    ∧ (∀ (findE : Locator → List Element) (st : List Locator) (i : Nat)
        (rest : List Nat) (l : Locator), st.get? i = some l →
        ((l.find (findE l)).1 = none →
          processIncl findE st (i :: rest) = (st, false))
        ∧ (∀ (e : Element) (l2 : Locator), l.find (findE l) = (some e, l2) →
            processIncl findE st (i :: rest)
              = processIncl findE (st.set i ((l2.score 1).1)) rest)) := by
  constructor
  · intro findE locs h
    simp [pageActive, h]
  · intro findE st i rest l hget
    rw [List.get?_eq_getElem?] at hget
    constructor
    · intro hnone
      rcases hfd : l.find (findE l) with ⟨o, l2⟩
      rw [hfd] at hnone
      simp only at hnone
      subst hnone
      simp [processIncl, hget, hfd]
    · intro e l2 hfd
      simp [processIncl, hget, hfd]

/-- Witness for C6: with a driver that finds nothing, the single inclusion
locator of `locsActiveW` is not found, the page is inactive and the
exclusion locators are returned untouched. -/
theorem page_active_inclusion_shortcircuit_witness :
    pageActive findNothing true locsActiveW =
      ({ inclusions :=
           (processIncl findNothing locsActiveW.inclusions
             (sortedIndices locsActiveW.inclusions)).1,
         exclusions := locsActiveW.exclusions }, false) :=
  page_active_inclusion_shortcircuit.1 findNothing locsActiveW (by decide)

/-- Indexing into an empty driver match list always fails. -/
theorem pyGet_nil (i : Int) : pyGet [] i = none := by
  rw [pyGet]
  split
  · simp
  · simp

/-- C5: dispatching with two usable locators where the higher-scored first
one resolves no element and the second resolves an element on which the
interaction succeeds ends with the first locator scored down by exactly 1,
the second scored up by exactly 1, and the dispatch successful (the loop
stops, attempting no further locator).  The score bounds make the `+1`/`-1`
adjustments exact under the clamping rules. -/
theorem dispatch_two_locators_spec
    (l1 l2 : Locator) (e : Element)
    (findE : Locator → List Element) (perform : Element → Bool)
    (h1 : l1.truthy = true) (h2 : l2.truthy = true)
    (hlt : l2.uses < l1.uses) (hp1 : 0 ≤ l1.uses)
    (hp2 : 0 ≤ l2.uses) (hc2 : l2.uses ≤ 98)
    (hf1 : findE l1 = []) (hi2 : l2.index = 0)
    (hf2 : findE l2 = [e]) (hv : e.visible = true)
    (hperf : perform e = true) :
    tryingLocators findE perform [l1, l2]
      = ([{ l1 with uses := l1.uses - 1 }, { l2 with uses := l2.uses + 1 }],
         false) := by
  have hle : l2.uses ≤ l1.uses := le_of_lt hlt
  have hsi : sortedIndices [l1, l2] = [0, 1] := by
    simp [sortedIndices, List.enum, List.enumFrom, List.insertionSort,
      List.orderedInsert, byUsesP, hle, h1, h2]
  have hfind1 : l1.find (findE l1) = (none, l1) := by
    rw [hf1, Locator.find, pyGet_nil]
  have hfind2 : l2.find (findE l2) = (some e, l2) := by
    rw [hf2, Locator.find, hi2]
    simp [pyGet, hv]
    rw [← hi2]
  have hm1 : max (-1) (l1.uses + -1) = l1.uses - 1 := by omega
  have hm2 : min 99 (max 1 (l2.uses + 1)) = l2.uses + 1 := by omega
  rw [tryingLocators, hsi]
  simp [tryLoop, hfind1, hfind2, hperf, Locator.score, hm1, hm2]

/-- Witness for C5: the concrete two-locator scenario where only the second
candidate resolves and the interaction succeeds. -/
theorem dispatch_two_locators_spec_witness :
    tryingLocators findSecondW performAlways [loc1W, loc2W]
      = ([{ loc1W with uses := loc1W.uses - 1 },
          { loc2W with uses := loc2W.uses + 1 }], false) :=
  dispatch_two_locators_spec loc1W loc2W elemW findSecondW performAlways
    (by decide) (by decide) (by decide) (by decide) (by decide) (by decide)
    (by decide) (by decide) (by decide) (by decide) (by decide)

/-- The dispatch loop never changes the number of locators it walks. -/
theorem tryLoop_length (findE : Locator → List Element)
    (perform : Element → Bool) (order : List Nat) :
    ∀ st : List Locator, ((tryLoop findE perform st order).1).length = st.length := by
  induction order with
  | nil => intro st; rfl
  | cons i rest ih =>
    intro st
    simp only [tryLoop]
    split
    · exact ih st
    · split
      · split
        · simp
        · rw [ih, List.length_set]
      · rw [ih, List.length_set]

/-- C8: when every candidate locator fails and the operator declines the
repair prompt, the dispatch appends no locator (the list keeps its length,
each candidate merely rescored) and the action is reported unresolved rather
than crashing; a fresh locator with initial score 0 is appended only when
the operator supplies a `(mode, value)` pair. -/
theorem dispatch_declined_repair_spec
    (findE : Locator → List Element) (perform : Element → Bool)
    (ls : List Locator) (rest : List (Option (String × String)))
    (hfail : (tryingLocators findE perform ls).2 = true) :
    (callMethodLoop findE perform (none :: rest) ls
        = ((tryingLocators findE perform ls).1, false))
    ∧ (((tryingLocators findE perform ls).1).length = ls.length)
    ∧ (∀ answers : List (Option (String × String)),
        answers.all Option.isNone = true →
        ((callMethodLoop findE perform answers ls).1).length = ls.length)
    ∧ (∀ (m v : String) (rest2 : List (Option (String × String))),
        callMethodLoop findE perform (some (m, v) :: rest2) ls
          = callMethodLoop findE perform rest2
              ((tryingLocators findE perform ls).1
                ++ [{ mode := m, value := v, index := 0, uses := 0 }])) := by
  have hlen : ((tryingLocators findE perform ls).1).length = ls.length :=
    tryLoop_length findE perform (sortedIndices ls) ls
  rcases htr : tryingLocators findE perform ls with ⟨ls2, failed⟩
  rw [htr] at hfail hlen
  simp only at hfail
  subst hfail
  refine ⟨?_, hlen, ?_, ?_⟩
  · simp [callMethodLoop, htr]
  · intro answers hall
    match answers with
    | [] => simp [callMethodLoop, htr, hlen]
    | none :: more => simp [callMethodLoop, htr, hlen]
    | some (m, v) :: more => simp at hall
  · intro m v rest2
    simp [callMethodLoop, htr]

/-- Witness for C8: a single-candidate action whose locator never resolves,
with the operator declining: the dispatch ends unresolved with the original
(rescored) locator list. -/
theorem dispatch_declined_repair_spec_witness :
    callMethodLoop findNothing performAlways [none] [loc1W]
      = ((tryingLocators findNothing performAlways [loc1W]).1, false) :=
  (dispatch_declined_repair_spec findNothing performAlways [loc1W] []
    (by decide)).1

/-- C4: whenever any persisted page of the domain has an exact path — active
or not — templated pages are removed from the active matches before a result
is chosen; in particular, with one exact-path and one templated-path page
both matching the current URL, only the exact page is returned, whatever the
registry order. -/
theorem auto_prefers_exact :
    (∀ (isActive : Page → Bool) (pages : List Page) (newPage : Page),
      pages.any Page.exact = true →
      auto isActive pages newPage =
        (match (pages.filter isActive).filter Page.exact with
         | p :: _ => p
         | [] => newPage))
    ∧ (∀ (isActive : Page → Bool) (pe pt newPage : Page),
        pe.exact = true → pt.exact = false →
        isActive pe = true → isActive pt = true →
        auto isActive [pe, pt] newPage = pe
        ∧ auto isActive [pt, pe] newPage = pe) := by
  constructor
  · intro isActive pages newPage h
    simp [auto, h]
  · intro isActive pe pt newPage he ht hae hat
    constructor <;> simp [auto, List.filter, List.any, he, ht, hae, hat]

/-- Witness for C4: the concrete exact and templated pages, both active. -/
theorem auto_prefers_exact_witness :
    auto (fun _ => true) [pageExactW, pageTmplW] pageNewW = pageExactW
    ∧ auto (fun _ => true) [pageTmplW, pageExactW] pageNewW = pageExactW :=
  auto_prefers_exact.2 (fun _ => true) pageExactW pageTmplW pageNewW
    (by decide) (by decide) rfl rfl

/-- C10: a failed find is side-effect free on the locator: when no element
exists at the resolved index (including the case where index 0 was invisible
and no element exists at index 1), `find` returns none and leaves the
locator — in particular its `index` field — unchanged; the `index` field is
mutated only when an element is returned. -/
theorem find_failure_pure (l : Locator) (elements : List Element) :
    ((l.find elements).1 = none → (l.find elements).2 = l)
    ∧ ((l.find elements).2.index ≠ l.index →
        ((l.find elements).1).isSome = true) := by
  rcases h1 : pyGet elements l.index with _ | e
  · constructor
    · intro _; simp [Locator.find, h1]
    · intro hne; exfalso; apply hne; simp [Locator.find, h1]
  · by_cases hc : (decide (l.index = 0) && !e.visible) = true
    · rcases h2 : pyGet elements (l.index + 1) with _ | e2
      · constructor
        · intro _; simp [Locator.find, h1, hc, h2]
        · intro hne; exfalso; apply hne; simp [Locator.find, h1, hc, h2]
      · constructor
        · intro hcontra; simp [Locator.find, h1, hc, h2] at hcontra
        · intro _; simp [Locator.find, h1, hc, h2]
    · constructor
      · intro hcontra; simp [Locator.find, h1, hc] at hcontra
      · intro _; simp [Locator.find, h1, hc]

/-- Witness for C10: index 0 resolves an invisible element and index 1 is
out of range, so `find` fails and the locator is returned unchanged. -/
theorem find_failure_pure_witness :
    ((Locator.find { mode := "id", value := "x", index := 0, uses := 5 }
        [{ visible := false }]).2)
      = { mode := "id", value := "x", index := 0, uses := 5 } :=
  (find_failure_pure { mode := "id", value := "x", index := 0, uses := 5 }
    [{ visible := false }]).1 (by decide)
